import Mathlib

/-!
Shallow embedding of `orcabridge/source.py`: the `Source` stream contract and
`GlobSource`, a filesystem glob source producing streams of (Tag, Packet)
pairs.

Modelling choices:
* The filesystem is a finite association list from directory paths to lists of
  entry names; a root path absent from the list is a non-existent directory.
* Glob matching follows the wildcard semantics the spec attributes to the
  underlying glob facility (an external library, not part of the sources):
  `*` matches any character sequence within a segment, `?` a single character,
  `[...]` a character class (with `!` negation and `a-b` ranges).  Patterns are
  matched against the entry names directly under the root directory.
* A matched file is reported as the root path joined with the entry name, as
  `Path(file_path) / name` renders it.
* A Python function object is a `PyFun`: an identity (its object id, which is
  what hashing a callable uses) together with its behaviour; an exception
  raised by a tag function is an `Except.error`.
* A produced stream is its sequence of yielded items together with the
  terminal outcome: `none` for normal exhaustion, `some e` when iteration
  raised `e` after the listed items.
-/

/-- A Tag: a mapping from string keys to identity-relevant values. -/
abbrev Tag := List (String × String)

/-- A Packet: a mapping from string keys to payload values (file paths). -/
abbrev Packet := List (String × String)

/-- One item of a character class: a literal character or a range. -/
inductive ClsItem where
  | single : Char → ClsItem
  | range : Char → Char → ClsItem
deriving DecidableEq

/-- A token of a parsed glob pattern. -/
inductive GlobTok where
  | lit : Char → GlobTok
  | star : GlobTok
  | anyChar : GlobTok
  | cls : Bool → List ClsItem → GlobTok
deriving DecidableEq

/-- Splits a bracket expression body at its closing `]`, if present. -/
def splitBracket : List Char → Option (List Char × List Char)
  | [] => none
  | c :: rest =>
    if c = ']' then some ([], rest)
    else
      match splitBracket rest with
      | some (body, r) => some (c :: body, r)
      | none => none

/-- Parses the items of a character class body (`a-b` ranges and singles). -/
def parseClsItems : List Char → List ClsItem
  | a :: '-' :: b :: rest => .range a b :: parseClsItems rest
  | a :: rest => .single a :: parseClsItems rest
  | [] => []

/-- Parses a glob pattern into tokens; an unclosed `[` is a literal.  The
fuel argument is structural; `parseGlob` supplies the pattern's length, which
bounds the recursion depth (each step consumes at least one character), so the
out-of-fuel branch is never reached from `parseGlob`. -/
def parseGlobF : Nat → List Char → List GlobTok
  | 0, _ => []
  | _ + 1, [] => []
  | k + 1, '*' :: rest => .star :: parseGlobF k rest
  | k + 1, '?' :: rest => .anyChar :: parseGlobF k rest
  | k + 1, '[' :: rest =>
    match splitBracket rest with
    | some (body, r) =>
      match body with
      | '!' :: items => .cls true (parseClsItems items) :: parseGlobF k r
      | items => .cls false (parseClsItems items) :: parseGlobF k r
    | none => .lit '[' :: parseGlobF k rest
  | k + 1, c :: rest => .lit c :: parseGlobF k rest

/-- Parses a glob pattern into tokens. -/
def parseGlob (l : List Char) : List GlobTok :=
  parseGlobF l.length l

/-- Membership of a character in a class item list. -/
def inClass (c : Char) : List ClsItem → Bool
  | [] => false
  | .single a :: rest => a == c || inClass c rest
  | .range a b :: rest => (decide (a ≤ c) && decide (c ≤ b)) || inClass c rest

/-- Matches a token list against a name, with `*` matching any sequence.  The
fuel argument is structural; `tokMatch` supplies the summed lengths plus one,
which bounds the recursion depth (each step shortens tokens or name), so the
out-of-fuel branch is never reached from `tokMatch`. -/
def tokMatchF : Nat → List GlobTok → List Char → Bool
  | 0, _, _ => false
  | _ + 1, [], [] => true
  | _ + 1, [], _ :: _ => false
  | k + 1, .star :: ps, [] => tokMatchF k ps []
  | k + 1, .star :: ps, c :: ns =>
    tokMatchF k ps (c :: ns) || tokMatchF k (.star :: ps) ns
  | _ + 1, .anyChar :: _, [] => false
  | k + 1, .anyChar :: ps, _ :: ns => tokMatchF k ps ns
  | _ + 1, .lit _ :: _, [] => false
  | k + 1, .lit a :: ps, c :: ns => (a == c) && tokMatchF k ps ns
  | _ + 1, .cls _ _ :: _, [] => false
  | k + 1, .cls neg items :: ps, c :: ns =>
    (neg != inClass c items) && tokMatchF k ps ns

/-- Matches a token list against a name. -/
def tokMatch (ps : List GlobTok) (ns : List Char) : Bool :=
  tokMatchF (ps.length + ns.length + 1) ps ns

/-- Whether entry name `nm` matches glob pattern `pat`. -/
def globMatch (pat nm : String) : Bool :=
  tokMatch (parseGlob pat.data) nm.data

/-- The filesystem: directory paths mapped to the entry names they contain. -/
structure FileSystem where
  dirs : List (String × List String)

/-- Entry names directly under directory `d`; empty when `d` does not exist. -/
def FileSystem.entriesOf (fs : FileSystem) (d : String) : List String :=
  (fs.dirs.lookup d).getD []

/-- Splits a character list at every `/`. -/
def splitSlash : List Char → List (List Char)
  | [] => [[]]
  | '/' :: rest => [] :: splitSlash rest
  | c :: rest =>
    match splitSlash rest with
    | [] => [[c]]
    | g :: gs => (c :: g) :: gs

/-- Path components of `d`, dropping empty and `.` parts as `Path` does. -/
def pathParts (d : String) : List (List Char) :=
  (splitSlash d.data).filter fun c => !(c.isEmpty || c == ['.'])

/-- Joins path components with `/` separators. -/
def joinComps : List (List Char) → List Char
  | [] => []
  | [c] => c
  | c :: rest => c ++ '/' :: joinComps rest

/-- Renders `Path(d) / p` as a string. -/
def joinPath (d p : String) : String :=
  let pre : List Char :=
    match d.data with
    | '/' :: _ => ['/']
    | _ => []
  ⟨pre ++ joinComps (pathParts d ++ [p.data])⟩

/-- The files `Path(d).glob(pat)` yields: matching entries under `d`, each as
the root joined with the entry name. -/
def globFiles (fs : FileSystem) (d pat : String) : List String :=
  ((fs.entriesOf d).filter fun e => globMatch pat e).map fun e => joinPath d e

/-- Index of the last occurrence of `c`, counted from the front. -/
def lastIdxOf (c : Char) : List Char → Option Nat
  | [] => none
  | a :: rest =>
    match lastIdxOf c rest with
    | some i => some (i + 1)
    | none => if a == c then some 0 else none

/-- The final path component, as `Path(p).name`. -/
def fileName (p : String) : String :=
  ⟨((splitSlash p.data).getLast?).getD []⟩

/-- `Path(p).stem`: the final component without its extension.  As in the
library, a dot that is the first or last character of the name is not an
extension separator. -/
def stem (p : String) : String :=
  let nm := (fileName p).data
  match lastIdxOf '.' nm with
  | some i => if 0 < i ∧ i < nm.length - 1 then ⟨nm.take i⟩ else ⟨nm⟩
  | none => ⟨nm⟩

/-- A Python function object: its identity (object id, used when hashing a
callable) and its behaviour; a raised exception is an `Except.error`. -/
structure PyFun where
  ident : Nat
  fn : String → Except String Tag

/-- The class attribute `default_tag_function`: tags a file with its stem under
key "file_name".  A single function object, hence one fixed identity. -/
def default_tag_function : PyFun :=
  ⟨0, fun f => Except.ok [("file_name", stem f)]⟩

/-- A `GlobSource` descriptor after construction. -/
structure GlobSource where
  name : String
  file_path : String
  pattern : String
  tag_function : PyFun

/-- `GlobSource.__init__`: stores the arguments; a `none` tag function is
replaced by the class default.  Takes no filesystem: construction is lazy. -/
def GlobSource.init (nm fp pat : String) (tf : Option PyFun) : GlobSource :=
  { name := nm, file_path := fp, pattern := pat,
    tag_function := tf.getD default_tag_function }

/-- Runs the generator of `GlobSource.forward` over a list of matched files:
yields `(tag_function(file), [(name, file)])` per file until the tag function
raises, in which case the error terminates the stream at that element. -/
def runFrom (s : GlobSource) : List String → List (Tag × Packet) × Option String
  | [] => ([], none)
  | f :: rest =>
    match s.tag_function.fn f with
    | .error e => ([], some e)
    | .ok t =>
      let r := runFrom s rest
      ((t, [(s.name, f)]) :: r.1, r.2)

/-- `GlobSource.forward`: the stream produced over the glob matches. -/
def GlobSource.forward (s : GlobSource) (fs : FileSystem) :
    List (Tag × Packet) × Option String :=
  runFrom s (globFiles fs s.file_path s.pattern)

/-- Modelled from the spec: `Operation.__call__` (module `orcabridge.base`) is
not among the sources; per the spec, invoking a zero-input operation returns
the stream its production logic (`forward`) builds, re-executed afresh. -/
def GlobSource.invoke (s : GlobSource) (fs : FileSystem) :
    List (Tag × Packet) × Option String :=
  s.forward fs

/-- `Source.__iter__`: iterating the source yields from invoking it. -/
def GlobSource.iter (s : GlobSource) (fs : FileSystem) :
    List (Tag × Packet) × Option String :=
  s.invoke fs

/-- `GlobSource.__repr__`. -/
def GlobSource.reprStr (s : GlobSource) : String :=
  "GlobSource(" ++ joinPath s.file_path s.pattern ++ ") ⇒ " ++ s.name

/-- A deterministic string hash standing for Python's `hash(str)`. -/
def strHash (s : String) : Nat :=
  s.data.foldl (fun a c => a * 31 + c.toNat) 7

/-- A tuple-hash combiner standing for Python's `hash(tuple)`. -/
def hashMix (a b : Nat) : Nat :=
  a * 1000003 + b

/-- `GlobSource.__hash__`: the hash of the tuple
(class, name, file_path, pattern, tag_function); a callable hashes by its
object identity. -/
def GlobSource.hashVal (s : GlobSource) : Nat :=
  hashMix (strHash "GlobSource")
    (hashMix (strHash s.name)
      (hashMix (strHash s.file_path)
        (hashMix (strHash s.pattern) s.tag_function.ident)))

/-- Modelled from the spec: descriptor equality.  The `Operation` and
`SyncStream` bases (modules `orcabridge.base`, `orcabridge.stream`) are not
among the sources; the spec fixes equality as agreement of
(class, name, file_path, pattern, tag_function), tag functions compared by
object identity. -/
def GlobSource.eqb (a b : GlobSource) : Bool :=
  a.name == b.name && a.file_path == b.file_path && a.pattern == b.pattern &&
    a.tag_function.ident == b.tag_function.ident

/-- A live stream object: its item sequence, terminal outcome, and a cursor
recording how far its consumer has advanced. -/
structure SyncStreamState where
  items : List (Tag × Packet)
  err : Option String
  pos : Nat

/-- Invoking a source yields a fresh stream object with its cursor at the
start. -/
def GlobSource.invokeStream (s : GlobSource) (fs : FileSystem) : SyncStreamState :=
  ⟨(s.invoke fs).1, (s.invoke fs).2, 0⟩

/-- Consuming `k` items advances only this stream's own cursor. -/
def SyncStreamState.advance (st : SyncStreamState) (k : Nat) : SyncStreamState :=
  { st with pos := st.pos + k }

/-- The items this stream has yet to yield. -/
def SyncStreamState.remaining (st : SyncStreamState) : List (Tag × Packet) :=
  st.items.drop st.pos

/-! ## Helper lemmas -/

theorem filter_map_eq_filterMap {α β : Type} (p : α → Bool) (f : α → β) :
    ∀ l : List α,
      (l.filter p).map f = l.filterMap fun a => if p a then some (f a) else none := by
  intro l
  induction l with
  | nil => rfl
  | cons a rest ih =>
    by_cases h : p a = true <;>
      simp [List.filter_cons, List.filterMap_cons, h, ih]

theorem runFrom_ok (s : GlobSource) (t : String → Tag) :
    ∀ l : List String, (∀ f ∈ l, s.tag_function.fn f = Except.ok (t f)) →
      runFrom s l = (l.map fun f => (t f, [(s.name, f)]), none) := by
  intro l
  induction l with
  | nil => intro _; rfl
  | cons f rest ih =>
    intro h
    have hf := h f (List.mem_cons_self f rest)
    have hrest := ih fun g hg => h g (List.mem_cons_of_mem f hg)
    simp [runFrom, hf, hrest]

theorem runFrom_error (s : GlobSource) (t : String → Tag) (e : String) :
    ∀ (pre : List String) (f : String) (post : List String),
      (∀ g ∈ pre, s.tag_function.fn g = Except.ok (t g)) →
      s.tag_function.fn f = Except.error e →
      runFrom s (pre ++ f :: post) =
        (pre.map fun g => (t g, [(s.name, g)]), some e) := by
  intro pre
  induction pre with
  | nil =>
    intro f post _ hf
    simp [runFrom, hf]
  | cons g rest ih =>
    intro f post hpre hf
    have hg := hpre g (List.mem_cons_self g rest)
    have hrest := ih f post (fun x hx => hpre x (List.mem_cons_of_mem g hx)) hf
    simp [runFrom, hg, hrest]

theorem invoke_empty_of_no_match (s : GlobSource) (fs : FileSystem)
    (h : fs.dirs.lookup s.file_path = none ∨
      ∀ e ∈ fs.entriesOf s.file_path, globMatch s.pattern e = false) :
    s.invoke fs = ([], none) := by
  have hglob : globFiles fs s.file_path s.pattern = [] := by
    rcases h with h | h
    · simp [globFiles, FileSystem.entriesOf, h]
    · simp only [globFiles, List.map_eq_nil_iff, List.filter_eq_nil_iff]
      intro e he
      simp [h e he]
  unfold GlobSource.invoke GlobSource.forward
  rw [hglob]
  rfl

/-! ## The claims -/

/-- C1: invoking a `GlobSource` yields exactly one stream item per filesystem
entry under `file_path` that matches `pattern` — the pair of the tag function
applied to the matched path and the one-key packet binding the constructor
name to that path — and no item for an entry that does not match. -/
theorem globSource_invoke_items (s : GlobSource) (fs : FileSystem)
    (t : String → Tag)
    (h : ∀ f ∈ globFiles fs s.file_path s.pattern,
      s.tag_function.fn f = Except.ok (t f)) :
    s.invoke fs =
      ((fs.entriesOf s.file_path).filterMap fun e =>
        if globMatch s.pattern e then
          some (t (joinPath s.file_path e), [(s.name, joinPath s.file_path e)])
        else none,
       none) := by
  have hrun := runFrom_ok s t (globFiles fs s.file_path s.pattern) h
  unfold GlobSource.invoke GlobSource.forward
  rw [hrun]
  unfold globFiles
  rw [List.map_map]
  rw [filter_map_eq_filterMap]
  simp [Function.comp]

/-- C1 witness: directory with entries a.txt, b.txt, c.log and pattern
"*.txt" under the default tag function. -/
theorem globSource_invoke_items_witness :
    (GlobSource.init "txt_file" "data_dir" "*.txt" none).invoke
        ⟨[("data_dir", ["a.txt", "b.txt", "c.log"])]⟩ =
      ([([("file_name", "a")], [("txt_file", "data_dir/a.txt")]),
        ([("file_name", "b")], [("txt_file", "data_dir/b.txt")])], none) := by
  have h := globSource_invoke_items
    (GlobSource.init "txt_file" "data_dir" "*.txt" none)
    ⟨[("data_dir", ["a.txt", "b.txt", "c.log"])]⟩
    (fun f => [("file_name", stem f)])
    (fun f _ => rfl)
  rw [h]
  decide

/-- C2: two descriptors with identical (name, file_path, pattern,
tag_function) compare equal and hash identically; descriptors differing in at
least one of those fields compare unequal.  A tag function is identified by
its object identity. -/
theorem globSource_eq_hash_law (a b : GlobSource) :
    (a.name = b.name ∧ a.file_path = b.file_path ∧ a.pattern = b.pattern ∧
        a.tag_function.ident = b.tag_function.ident →
      GlobSource.eqb a b = true ∧ a.hashVal = b.hashVal) ∧
    (a.name ≠ b.name ∨ a.file_path ≠ b.file_path ∨ a.pattern ≠ b.pattern ∨
        a.tag_function.ident ≠ b.tag_function.ident →
      GlobSource.eqb a b = false) := by
  constructor
  · rintro ⟨h1, h2, h3, h4⟩
    constructor
    · simp [GlobSource.eqb, h1, h2, h3, h4]
    · simp [GlobSource.hashVal, h1, h2, h3, h4]
  · intro h
    simp only [GlobSource.eqb, Bool.and_eq_false_iff, beq_eq_false_iff_ne,
      ne_eq]
    rcases h with h | h | h | h
    · exact Or.inl (Or.inl (Or.inl h))
    · exact Or.inl (Or.inl (Or.inr h))
    · exact Or.inl (Or.inr h)
    · exact Or.inr h

/-- C2 witness: two identically-configured descriptors are equal with equal
hashes; changing the name breaks equality. -/
theorem globSource_eq_hash_law_witness :
    (GlobSource.eqb (GlobSource.init "a" "d" "*" none)
        (GlobSource.init "a" "d" "*" none) = true ∧
      (GlobSource.init "a" "d" "*" none).hashVal =
        (GlobSource.init "a" "d" "*" none).hashVal) ∧
    GlobSource.eqb (GlobSource.init "a" "d" "*" none)
        (GlobSource.init "b" "d" "*" none) = false :=
  ⟨(globSource_eq_hash_law _ _).1 ⟨rfl, rfl, rfl, rfl⟩,
   (globSource_eq_hash_law _ _).2 (Or.inl (by decide))⟩

/-- C3: with the default tag function (constructor argument `none`), every
matched file f is tagged with the single-key mapping of "file_name" to f's
stem — the final path component without its extension — and the default tag
function is deterministic: at every path it evaluates to that one tag. -/
theorem globSource_default_tag (nm fp pat : String) (fs : FileSystem) :
    (GlobSource.init nm fp pat none).invoke fs =
      ((globFiles fs fp pat).map fun f => ([("file_name", stem f)], [(nm, f)]),
       none) ∧
    ∀ f : String,
      default_tag_function.fn f = Except.ok [("file_name", stem f)] :=
  ⟨runFrom_ok (GlobSource.init nm fp pat none)
      (fun f => [("file_name", stem f)]) _ (fun _ _ => rfl),
   fun _ => rfl⟩

/-- C4: directly iterating a source yields exactly the sequence obtained by
invoking the source as a callable and iterating the returned stream. -/
theorem source_iter_eq_invoke (s : GlobSource) (fs : FileSystem) :
    s.iter fs = s.invoke fs := rfl

/-- C5: if the root path does not exist in the filesystem, or no entry under
it matches the pattern, the invoked stream yields zero items and reports no
error. -/
theorem globSource_empty_on_no_match (s : GlobSource) (fs : FileSystem)
    (h : fs.dirs.lookup s.file_path = none ∨
      ∀ e ∈ fs.entriesOf s.file_path, globMatch s.pattern e = false) :
    s.invoke fs = ([], none) :=
  invoke_empty_of_no_match s fs h

/-- C5 witness: a root that exists with no matching entry, and a root that
does not exist at all, both invoke to the empty error-free stream. -/
theorem globSource_empty_on_no_match_witness :
    (GlobSource.init "n" "data_dir" "*.csv" none).invoke
        ⟨[("data_dir", ["a.txt", "b.txt", "c.log"])]⟩ = ([], none) ∧
    (GlobSource.init "n" "no_such_dir" "*" none).invoke
        ⟨[("data_dir", ["a.txt"])]⟩ = ([], none) :=
  ⟨globSource_empty_on_no_match _ _ (Or.inr (by decide)),
   globSource_empty_on_no_match _ _ (Or.inl (by decide))⟩

/-- C6: construction stores the arguments and touches no filesystem —
`GlobSource.init` takes no filesystem argument and is total, so any
file_path (existing or not) is accepted without error; a source constructed
over a non-existent root still invokes, to an empty error-free stream. -/
theorem globSource_lazy_construction (nm fp pat : String) (tf : Option PyFun)
    (fs : FileSystem) (h : fs.dirs.lookup fp = none) :
    (GlobSource.init nm fp pat tf).name = nm ∧
    (GlobSource.init nm fp pat tf).file_path = fp ∧
    (GlobSource.init nm fp pat tf).pattern = pat ∧
    (GlobSource.init nm fp pat tf).invoke fs = ([], none) :=
  ⟨rfl, rfl, rfl, invoke_empty_of_no_match _ fs (Or.inl h)⟩

/-- C6 witness: constructing over a non-existent path succeeds and invoking
the result yields the empty stream. -/
theorem globSource_lazy_construction_witness :
    (GlobSource.init "x" "no_such_dir" "*" none).name = "x" ∧
    (GlobSource.init "x" "no_such_dir" "*" none).file_path = "no_such_dir" ∧
    (GlobSource.init "x" "no_such_dir" "*" none).pattern = "*" ∧
    (GlobSource.init "x" "no_such_dir" "*" none).invoke
      ⟨[("other", ["a"])]⟩ = ([], none) :=
  globSource_lazy_construction "x" "no_such_dir" "*" none
    ⟨[("other", ["a"])]⟩ (by decide)

/-- C7: if the tag function succeeds on every match enumerated before f and
raises on f, the invoked stream yields exactly the items of the earlier
matches unchanged, then propagates the error at f's position and yields
nothing further. -/
theorem globSource_tag_error_fail_fast (s : GlobSource) (fs : FileSystem)
    (t : String → Tag) (pre : List String) (f : String) (post : List String)
    (e : String)
    (hglob : globFiles fs s.file_path s.pattern = pre ++ f :: post)
    (hpre : ∀ g ∈ pre, s.tag_function.fn g = Except.ok (t g))
    (hf : s.tag_function.fn f = Except.error e) :
    s.invoke fs = (pre.map fun g => (t g, [(s.name, g)]), some e) := by
  unfold GlobSource.invoke GlobSource.forward
  rw [hglob]
  exact runFrom_error s t e pre f post hpre hf

/-- C7 witness: a tag function raising on the second of three matches yields
the first item, then the error, and nothing for the third match. -/
theorem globSource_tag_error_fail_fast_witness :
    (GlobSource.init "x" "d" "*"
        (some ⟨7, fun f => if f == "d/b" then Except.error "boom"
                           else Except.ok [("k", f)]⟩)).invoke
        ⟨[("d", ["a", "b", "c"])]⟩ =
      ([([("k", "d/a")], [("x", "d/a")])], some "boom") :=
  globSource_tag_error_fail_fast _ _ (fun g => [("k", g)])
    ["d/a"] "d/b" ["d/c"] "boom" (by decide)
    (fun g hg => by rw [List.mem_singleton] at hg; subst hg; rfl) rfl

/-- C8: invocations are independent stream objects: each invocation carries
the full freshly-produced item list with its cursor at the start, advancing a
stream's cursor never changes any stream's item list, what remains of a
stream depends only on its own consumption, and any two invocations over the
same filesystem hold the same multiset of items. -/
theorem globSource_reinvocation_independence (s : GlobSource)
    (fs : FileSystem) (k : Nat) :
    ((s.invokeStream fs).advance k).items = (s.invokeStream fs).items ∧
    ((s.invokeStream fs).advance k).remaining = (s.invoke fs).1.drop k ∧
    (s.invokeStream fs).remaining = (s.invoke fs).1 ∧
    Multiset.ofList (s.invokeStream fs).items =
      Multiset.ofList (s.invoke fs).1 := by
  refine ⟨rfl, ?_, ?_, rfl⟩ <;>
    simp [SyncStreamState.advance, SyncStreamState.remaining,
      GlobSource.invokeStream]

/-- C9 counterexample: the textual representation of
GlobSource("txt_file", "data_dir", "*.txt") is not the bare
"<path-with-pattern> ⇒ <name>" string: the code wraps the path expression in
"GlobSource(...)". -/
theorem globSource_repr_counterexample :
    (GlobSource.init "txt_file" "data_dir" "*.txt" none).reprStr ≠
      joinPath "data_dir" "*.txt" ++ " ⇒ " ++ "txt_file" := by
  decide

/-- C9 (amended): the textual representation is exactly
"GlobSource(<path-with-pattern>) ⇒ <name>", where the path expression joins
file_path with pattern. -/
theorem globSource_repr_format (nm fp pat : String) (tf : Option PyFun) :
    (GlobSource.init nm fp pat tf).reprStr =
      "GlobSource(" ++ joinPath fp pat ++ ") ⇒ " ++ nm := rfl

/-- C10: after construction the stored tag function is always a function
value, never the absent option: the class default when the constructor
received `none`, otherwise the supplied function unchanged. -/
theorem globSource_tag_function_stored (nm fp pat : String) (pf : PyFun) :
    (GlobSource.init nm fp pat none).tag_function = default_tag_function ∧
    (GlobSource.init nm fp pat (some pf)).tag_function = pf :=
  ⟨rfl, rfl⟩
